import Mathlib

/-!
Verification of the supervisor orchestration core and the record-store
CRUD tools of the Agentic-RAG-CRUD-MCP repository, as a shallow embedding
in Lean 4.

Embedding conventions:
* Python strings are Lean `String`s; `str.lower()` and SQLite `LOWER`
  are modelled by `lowerStr`, an ASCII case fold (every keyword the code
  compares against is ASCII).
* The `in` substring test of Python is `strHas`.
* The language-model calls made by `process_query` (routing reply, the
  two worker agents, the synthesis reply, the validation reply) are
  black boxes; they are modelled by an `Oracle` of reply texts indexed
  by the attempt counter.  Worker-agent invocations may raise, so they
  return `Except String String`; an `Except.error` models a Python
  exception propagating out of `crew.kickoff`, which in the source is
  intercepted only by the top-level `try` of `process_query`.
* The `while attempt <= max_attempts` loop is modelled with a fuel
  parameter (`maxAttempts + 1` fuel is enough for every run, since
  `attempt` grows by one per iteration and starts at `1`).
* The SQLite database is a record of row lists in rowid order plus the
  AUTOINCREMENT counters and the `PRAGMA foreign_keys` flag of the
  connection.  `sqlite3.connect` leaves that pragma OFF and
  `database.py` never issues it, so `initDB.foreignKeysOn = false` and
  the `ON DELETE CASCADE` clause of the schema is not enforced.
* Each MCP tool returns a Python dictionary; these are modelled by
  `ToolResult`, a record of optional fields, one per dictionary key
  that some tool emits.  A tool that catches an exception and returns
  an error dictionary is a total Lean function returning a failure
  `ToolResult`; no exception escapes to the caller.
-/

namespace AgenticRag

/-! ## String utilities -/

/-- Boolean test that the first list is a prefix of the second. -/
def startsWithL : List Char → List Char → Bool
  | [], _ => true
  | _ :: _, [] => false
  | a :: as, b :: bs => a == b && startsWithL as bs

/-- Boolean substring test on character lists, mirroring Python `in`. -/
def hasSubL (needle : List Char) : List Char → Bool
  | [] => needle.isEmpty
  | b :: bs => startsWithL needle (b :: bs) || hasSubL needle bs

/-- Python `needle in hay` on strings. -/
def strHas (hay needle : String) : Bool := hasSubL needle.data hay.data

/-- ASCII case fold, modelling Python `str.lower()` and SQLite `LOWER`
on the ASCII data this program compares. -/
def lowerStr (s : String) : String := String.mk (s.data.map Char.toLower)

/-! ## Supervisor normalizers (`crew_supervisor.py`) -/

/-- Routing normalizer `SupervisorMultiAgentCrew._parse_routing_decision`. -/
def parseRoutingDecision (output : String) : String :=
  let l := lowerStr output
  if strHas l "both" || strHas l "mcp_and_rag" then "BOTH"
  else if strHas l "mcp" || strHas l "database" then "MCP"
  else if strHas l "rag" || strHas l "document" then "RAG"
  else "BOTH"

/-- Result dictionary of `_parse_validation_result`: `status` is
`"ACCEPT"` or `"RETRY"`; accept dictionaries carry a `reason`, retry
dictionaries carry a `next_agent`. -/
structure ValidationResult where
  status : String
  reason : Option String := none
  nextAgent : Option String := none
deriving DecidableEq, Repr

/-- Acceptance keywords of `_parse_validation_result`. -/
def acceptKeywords : List String :=
  ["accept", "sufficient", "complete", "correct", "accurate",
   "found", "yes", "good", "adequate", "satisfactory"]

/-- Retry keywords of `_parse_validation_result`. -/
def retryKeywords : List String :=
  ["retry", "insufficient", "incomplete", "missing", "try again",
   "not found", "no", "failed"]

/-- Validation normalizer `SupervisorMultiAgentCrew._parse_validation_result`. -/
def parseValidationResult (output : String) : ValidationResult :=
  let l := lowerStr output
  if acceptKeywords.any (fun k => strHas l k) then
    { status := "ACCEPT", reason := some output }
  else if retryKeywords.any (fun k => strHas l k) then
    if strHas l "both" then { status := "RETRY", nextAgent := some "BOTH" }
    else if strHas l "mcp" then { status := "RETRY", nextAgent := some "MCP" }
    else if strHas l "rag" then { status := "RETRY", nextAgent := some "RAG" }
    else { status := "RETRY", nextAgent := some "BOTH" }
  else if strHas l "engine number" && strHas l "en12345xyz" then
    { status := "ACCEPT", reason := some "Answer contains requested information" }
  else
    { status := "ACCEPT", reason := some "Validation unclear, accepting answer" }

/-! ## The `process_query` orchestration loop (`crew_supervisor.py`) -/

/-- The black-box language-model replies consumed by one run of
`process_query`, indexed by the attempt counter where the call sits
inside the retry loop.  Worker-agent invocations may raise an
exception, modelled by `Except.error`. -/
structure Oracle where
  routingReply : String
  mcpReply : Nat → Except String String
  ragReply : Nat → Except String String
  synthesisReply : Nat → String
  validationReply : Nat → String

/-- `max_attempts` of `process_query`. -/
def maxAttempts : Nat := 3

/-- One EXECUTING stage: run the MCP worker when the route selects it,
then the RAG worker, collecting `worker_results` in invocation order;
an exception from either `kickoff` aborts the stage (and, in the
source, the whole query). -/
def runWorkers (o : Oracle) (route : String) (attempt : Nat) :
    Except String (List (String × String)) :=
  match (if route = "MCP" ∨ route = "BOTH" then
           (o.mcpReply attempt).map (fun s => [("MCP", s)])
         else Except.ok []) with
  | Except.error e => Except.error e
  | Except.ok rs1 =>
    match (if route = "RAG" ∨ route = "BOTH" then
             (o.ragReply attempt).map (fun s => [("RAG", s)])
           else Except.ok []) with
    | Except.error e => Except.error e
    | Except.ok rs2 => Except.ok (rs1 ++ rs2)

/-- The CandidateAnswer of one attempt: the synthesis reply when more
than one worker ran, the single worker's text when exactly one ran, and
the sentinel `"No agents were executed"` otherwise. -/
def candidateAnswer (o : Oracle) (attempt : Nat) (ws : List (String × String)) : String :=
  if 1 < ws.length then o.synthesisReply attempt
  else match ws with
  | [] => "No agents were executed"
  | w :: _ => w.2

/-- The `while attempt <= max_attempts` loop of `process_query`.
Fuel-indexed; `Except.ok (some (ans, att))` is a `break` with
`final_answer = ans` at attempt `att`, `Except.ok none` is loop
exhaustion with `final_answer` still `None`, and `Except.error e` is an
exception propagating to the top-level handler. -/
def runLoopFuel (o : Oracle) : Nat → String → Nat → Except String (Option (String × Nat))
  | 0, _, _ => Except.ok none
  | fuel + 1, route, attempt =>
    if attempt ≤ maxAttempts then
      match runWorkers o route attempt with
      | Except.error e => Except.error e
      | Except.ok ws =>
        if (parseValidationResult (o.validationReply attempt)).status = "ACCEPT" then
          Except.ok (some (candidateAnswer o attempt ws, attempt))
        else
          runLoopFuel o fuel
            ((parseValidationResult (o.validationReply attempt)).nextAgent.getD "BOTH")
            (attempt + 1)
    else Except.ok none

/-- The loop entered at `attempt = 1` with enough fuel for every run. -/
def runLoop (o : Oracle) (route : String) : Except String (Option (String × Nat)) :=
  runLoopFuel o (maxAttempts + 1) route 1

/-- The dictionary `process_query` returns.  The success dictionary has
keys `success/query/result/attempts/pattern`, the exhausted dictionary
`success/query/error/attempts/pattern`, and the top-level exception
dictionary only `success/query/error`; absent keys are `none`. -/
structure FinalResult where
  success : Bool
  query : String
  result : Option String := none
  error : Option String := none
  attempts : Option Nat := none
  pattern : Option String := none
deriving DecidableEq, Repr

/-- The exhausted-failure dictionary of `process_query` (also produced
when `final_answer` is the empty string, which is Python-falsy). -/
def exhaustedResult (q : String) : FinalResult :=
  { success := false, query := q,
    error := some "Could not generate satisfactory answer after maximum attempts",
    attempts := some maxAttempts, pattern := some "supervisor_multi_agent" }

/-- `SupervisorMultiAgentCrew.process_query`: route once, run the retry
loop, and package `final_answer` — note the Python truthiness test
`if final_answer:`, under which an accepted empty-string answer falls
through to the failure dictionary. -/
def processQuery (o : Oracle) (q : String) : FinalResult :=
  match runLoop o (parseRoutingDecision o.routingReply) with
  | Except.error e => { success := false, query := q, error := some e }
  | Except.ok none => exhaustedResult q
  | Except.ok (some (ans, att)) =>
    if ans = "" then exhaustedResult q
    else { success := true, query := q, result := some ans,
           attempts := some att, pattern := some "supervisor_multi_agent" }

/-- Unwrap an `Except String String`, defaulting to the error text;
under an `Except.ok` hypothesis this is the reply itself. -/
def getOk : Except String String → String
  | Except.ok s => s
  | Except.error e => e

/-- The worker-result list of one attempt when no worker raises. -/
def workerListOk (o : Oracle) (route : String) (attempt : Nat) : List (String × String) :=
  (if route = "MCP" ∨ route = "BOTH" then [("MCP", getOk (o.mcpReply attempt))] else []) ++
  (if route = "RAG" ∨ route = "BOTH" then [("RAG", getOk (o.ragReply attempt))] else [])

/-- The route in force at a given attempt: the parsed routing reply at
attempt 1, afterwards the `next_agent` of the previous attempt's parsed
validation reply (defaulting to `"BOTH"`). -/
def routeAt (o : Oracle) : Nat → String
  | 0 => parseRoutingDecision o.routingReply
  | 1 => parseRoutingDecision o.routingReply
  | k + 2 => (parseValidationResult (o.validationReply (k + 1))).nextAgent.getD "BOTH"

/-- The CandidateAnswer produced at a given attempt when no worker
raises. -/
def candidateAt (o : Oracle) (attempt : Nat) : String :=
  candidateAnswer o attempt (workerListOk o (routeAt o attempt) attempt)

/-- Oracle of the C4 counterexample: route `MCP`, the worker answers
with the empty string, the validator replies `ACCEPT`. -/
def cexAcceptEmpty : Oracle :=
  { routingReply := "MCP",
    mcpReply := fun _ => Except.ok "",
    ragReply := fun _ => Except.ok "unused",
    synthesisReply := fun _ => "unused",
    validationReply := fun _ => "ACCEPT" }

/-- Oracle of the C5 counterexample: route `BOTH`, the MCP worker
answers, the RAG worker raises. -/
def cexRagRaises : Oracle :=
  { routingReply := "BOTH",
    mcpReply := fun _ => Except.ok "Jane is 30, email jane@x.com",
    ragReply := fun _ => Except.error "boom",
    synthesisReply := fun _ => "unused",
    validationReply := fun _ => "ACCEPT" }

/-- Oracle whose validator always replies `retry`: used as witness data
for the retry-budget theorem. -/
def oracleAllRetry : Oracle :=
  { routingReply := "RAG",
    mcpReply := fun _ => Except.ok "mcp text",
    ragReply := fun _ => Except.ok "rag text",
    synthesisReply := fun _ => "synth text",
    validationReply := fun _ => "retry" }

/-- Oracle whose validator accepts at once: used as witness data for the
accept theorem. -/
def oracleAcceptNow : Oracle :=
  { routingReply := "MCP",
    mcpReply := fun _ => Except.ok "John is 30 years old",
    ragReply := fun _ => Except.ok "unused",
    synthesisReply := fun _ => "unused",
    validationReply := fun _ => "ACCEPT" }

/-! ## The record store (`tools/database.py`, `mcp_servers/person_server.py`,
`mcp_servers/bank_server.py`) -/

/-- A row of the `persons` table. -/
structure Person where
  id : Nat
  name : String
  age : Int
  email : String
deriving DecidableEq, Repr

/-- A row of the `bank_accounts` table.  `balance` is SQLite `REAL`,
modelled as a rational (no floating-point arithmetic is performed on
it anywhere in the code). -/
structure BankAccount where
  accountId : Nat
  personId : Nat
  bankName : String
  balance : Rat
deriving DecidableEq, Repr

/-- The account dictionaries of `get_accounts_by_person` and
`get_person_with_accounts`, which omit `personId`. -/
structure AccountView where
  accountId : Nat
  bankName : String
  balance : Rat
deriving DecidableEq, Repr

/-- The `data` dictionary of `get_person_with_accounts`. -/
structure PersonData where
  id : Nat
  name : String
  age : Int
  email : String
  accounts : List AccountView
  totalBalance : Rat
deriving DecidableEq, Repr

/-- The SQLite database held by the singleton connection: the two
tables in rowid order, the AUTOINCREMENT counters, and whether the
connection has executed `PRAGMA foreign_keys = ON` (it never does:
`_initialize_db` only creates the tables, and Python's `sqlite3`
leaves foreign-key enforcement off by default, so the schema's
`ON DELETE CASCADE` clause is not enforced). -/
structure DB where
  persons : List Person
  accounts : List BankAccount
  nextPersonId : Nat
  nextAccountId : Nat
  foreignKeysOn : Bool
deriving DecidableEq, Repr

/-- The freshly initialized database of `_initialize_db`. -/
def initDB : DB :=
  { persons := [], accounts := [], nextPersonId := 1, nextAccountId := 1,
    foreignKeysOn := false }

/-- The dictionary an MCP tool returns.  Each tool emits a subset of
these keys; absent keys are `none`.  Every tool body is wrapped in
`try/except` returning an error dictionary, so the embedded tools are
total functions and no exception reaches the caller. -/
structure ToolResult where
  success : Bool
  error : Option String := none
  message : Option String := none
  person : Option Person := none
  personName : Option String := none
  persons : Option (List Person) := none
  count : Option Nat := none
  account : Option BankAccount := none
  accounts : Option (List BankAccount) := none
  accountViews : Option (List AccountView) := none
  totalBalance : Option Rat := none
  data : Option PersonData := none
deriving DecidableEq, Repr

/-- Python `arg or cur` for an optional text column: both `None` and
the empty string are falsy and fall back to the current value. -/
def pyOrStr (arg : Option String) (cur : String) : String :=
  match arg with
  | none => cur
  | some s => if s == "" then cur else s

/-- `create_person`: `INSERT INTO persons` with the UNIQUE(email)
constraint surfaced as the `"Email already exists"` error. -/
def createPerson (db : DB) (name : String) (age : Int) (email : String) :
    ToolResult × DB :=
  if db.persons.any (fun p => p.email == email) then
    ({ success := false, error := some "Email already exists" }, db)
  else
    let pid := db.nextPersonId
    let p : Person := { id := pid, name := name, age := age, email := email }
    ({ success := true, person := some p,
       message := some ("Person " ++ name ++ " created successfully with ID " ++ toString pid) },
     { db with persons := db.persons ++ [p], nextPersonId := pid + 1 })

/-- `get_person`. -/
def getPerson (db : DB) (pid : Nat) : ToolResult × DB :=
  match db.persons.find? (fun p => p.id == pid) with
  | some p => ({ success := true, person := some p }, db)
  | none => ({ success := false, error := some "Person not found" }, db)

/-- `list_persons`. -/
def listPersons (db : DB) : ToolResult × DB :=
  ({ success := true, persons := some db.persons, count := some db.persons.length }, db)

/-- `search_person_by_name`: `SELECT * FROM persons WHERE LOWER(name) =
LOWER(?)` followed by `fetchone`, i.e. the first matching row. -/
def searchPersonByName (db : DB) (name : String) : ToolResult × DB :=
  match db.persons.find? (fun p => lowerStr p.name == lowerStr name) with
  | some p => ({ success := true, person := some p }, db)
  | none =>
    ({ success := false, error := some ("No person named " ++ name ++ " found") }, db)

/-- `update_person`: text columns fall back on falsy arguments via
Python `or`, `age` is compared against `None` explicitly; a collision
of the new email with another row's raises the UNIQUE constraint,
caught by the generic handler as its `str(e)`. -/
def updatePerson (db : DB) (pid : Nat) (name : Option String) (age : Option Int)
    (email : Option String) : ToolResult × DB :=
  match db.persons.find? (fun p => p.id == pid) with
  | none => ({ success := false, error := some "Person not found" }, db)
  | some cur =>
    let name := pyOrStr name cur.name
    let age := age.getD cur.age
    let email := pyOrStr email cur.email
    if email != cur.email && db.persons.any (fun p => p.id != pid && p.email == email) then
      ({ success := false, error := some "UNIQUE constraint failed: persons.email" }, db)
    else
      let p : Person := { id := pid, name := name, age := age, email := email }
      ({ success := true, person := some p,
         message := some ("Person " ++ name ++ " updated successfully") },
       { db with persons := db.persons.map (fun q => if q.id == pid then p else q) })

/-- `delete_person`: deletes the `persons` row; the source comments
`bank accounts will cascade delete`, but the cascade only runs when the
connection enforces foreign keys, which this one never enables. -/
def deletePerson (db : DB) (pid : Nat) : ToolResult × DB :=
  match db.persons.find? (fun p => p.id == pid) with
  | none => ({ success := false, error := some "Person not found" }, db)
  | some p =>
    ({ success := true, message := some ("Person " ++ p.name ++ " deleted successfully") },
     { db with persons := db.persons.filter (fun q => q.id != pid),
               accounts := if db.foreignKeysOn then
                   db.accounts.filter (fun a => a.personId != pid)
                 else db.accounts })

/-- `create_bank_account`: checks the person exists before inserting. -/
def createBankAccount (db : DB) (pid : Nat) (bankName : String) (balance : Rat) :
    ToolResult × DB :=
  match db.persons.find? (fun p => p.id == pid) with
  | none =>
    ({ success := false,
       error := some ("Person with ID " ++ toString pid ++ " not found") }, db)
  | some p =>
    let aid := db.nextAccountId
    let a : BankAccount :=
      { accountId := aid, personId := pid, bankName := bankName, balance := balance }
    ({ success := true, account := some a,
       message := some ("Bank account created successfully with ID " ++ toString aid ++
         " for " ++ p.name) },
     { db with accounts := db.accounts ++ [a], nextAccountId := aid + 1 })

/-- `get_bank_account`. -/
def getBankAccount (db : DB) (aid : Nat) : ToolResult × DB :=
  match db.accounts.find? (fun a => a.accountId == aid) with
  | some a => ({ success := true, account := some a }, db)
  | none => ({ success := false, error := some "Bank account not found" }, db)

/-- `list_bank_accounts`. -/
def listBankAccounts (db : DB) : ToolResult × DB :=
  ({ success := true, accounts := some db.accounts,
     count := some db.accounts.length }, db)

/-- The per-account dictionary shape of the by-person queries. -/
def accountView (a : BankAccount) : AccountView :=
  { accountId := a.accountId, bankName := a.bankName, balance := a.balance }

/-- `get_accounts_by_person`. -/
def getAccountsByPerson (db : DB) (pid : Nat) : ToolResult × DB :=
  match db.persons.find? (fun p => p.id == pid) with
  | none =>
    ({ success := false,
       error := some ("Person with ID " ++ toString pid ++ " not found") }, db)
  | some p =>
    let rows := db.accounts.filter (fun a => a.personId == pid)
    ({ success := true, personName := some p.name,
       accountViews := some (rows.map accountView),
       totalBalance := some (rows.map (fun a => a.balance)).sum,
       count := some rows.length }, db)

/-- `update_bank_account`: `bank_name` falls back on falsy arguments
via Python `or`, `balance` is compared against `None` explicitly. -/
def updateBankAccount (db : DB) (aid : Nat) (bankName : Option String)
    (balance : Option Rat) : ToolResult × DB :=
  match db.accounts.find? (fun a => a.accountId == aid) with
  | none => ({ success := false, error := some "Bank account not found" }, db)
  | some cur =>
    let bankName := pyOrStr bankName cur.bankName
    let balance := balance.getD cur.balance
    let a : BankAccount :=
      { accountId := aid, personId := cur.personId, bankName := bankName,
        balance := balance }
    ({ success := true, account := some a,
       message := some ("Bank account " ++ toString aid ++ " updated successfully") },
     { db with accounts := db.accounts.map (fun b => if b.accountId == aid then a else b) })

/-- `delete_bank_account`. -/
def deleteBankAccount (db : DB) (aid : Nat) : ToolResult × DB :=
  match db.accounts.find? (fun a => a.accountId == aid) with
  | none => ({ success := false, error := some "Bank account not found" }, db)
  | some _ =>
    ({ success := true,
       message := some ("Bank account " ++ toString aid ++ " deleted successfully") },
     { db with accounts := db.accounts.filter (fun a => a.accountId != aid) })

/-- `get_person_with_accounts` (LEFT JOIN): rows exist iff the person
does; account columns are NULL (skipped by the `if row["accountId"]:`
truthiness test) exactly for the no-account row, since AUTOINCREMENT
ids start at 1. -/
def getPersonWithAccounts (db : DB) (pid : Nat) : ToolResult × DB :=
  match db.persons.find? (fun p => p.id == pid) with
  | none => ({ success := false, error := some "Person not found" }, db)
  | some p =>
    let rows := db.accounts.filter (fun a => a.personId == pid)
    ({ success := true,
       data := some { id := p.id, name := p.name, age := p.age, email := p.email,
                      accounts := rows.map accountView,
                      totalBalance := (rows.map (fun a => a.balance)).sum } }, db)

/-- The record-store operations, one constructor per MCP CRUD tool. -/
inductive StoreOp where
  | createPerson (name : String) (age : Int) (email : String)
  | getPerson (pid : Nat)
  | listPersons
  | searchPersonByName (name : String)
  | updatePerson (pid : Nat) (name : Option String) (age : Option Int)
      (email : Option String)
  | deletePerson (pid : Nat)
  | createBankAccount (pid : Nat) (bankName : String) (balance : Rat)
  | getBankAccount (aid : Nat)
  | listBankAccounts
  | getAccountsByPerson (pid : Nat)
  | updateBankAccount (aid : Nat) (bankName : Option String) (balance : Option Rat)
  | deleteBankAccount (aid : Nat)
  | getPersonWithAccounts (pid : Nat)

/-- Dispatch a record-store operation. -/
def runOp : StoreOp → DB → ToolResult × DB
  | StoreOp.createPerson name age email, db => createPerson db name age email
  | StoreOp.getPerson pid, db => getPerson db pid
  | StoreOp.listPersons, db => listPersons db
  | StoreOp.searchPersonByName name, db => searchPersonByName db name
  | StoreOp.updatePerson pid name age email, db => updatePerson db pid name age email
  | StoreOp.deletePerson pid, db => deletePerson db pid
  | StoreOp.createBankAccount pid bank bal, db => createBankAccount db pid bank bal
  | StoreOp.getBankAccount aid, db => getBankAccount db aid
  | StoreOp.listBankAccounts, db => listBankAccounts db
  | StoreOp.getAccountsByPerson pid, db => getAccountsByPerson db pid
  | StoreOp.updateBankAccount aid bank bal, db => updateBankAccount db aid bank bal
  | StoreOp.deleteBankAccount aid, db => deleteBankAccount db aid
  | StoreOp.getPersonWithAccounts pid, db => getPersonWithAccounts db pid

/-- A database holding one person who owns one bank account, built by
the store's own operations. -/
def dbOneOfEach : DB :=
  (createBankAccount (createPerson initDB "Alice" 30 "alice@example.com").2
    1 "State Bank" 100).2

end AgenticRag

namespace AgenticRag

/-! ## Theorems: supervisor normalizers -/

/-- C2: the routing normalizer is a pure function of the reply text that
returns `BOTH` on any appearance of `both` or `mcp_and_rag`, otherwise
`MCP` on `mcp` or `database`, otherwise `RAG` on `rag` or `document`,
otherwise defaults to `BOTH`. -/
theorem parse_routing_decision_spec (s : String) :
    ((strHas (lowerStr s) "both" || strHas (lowerStr s) "mcp_and_rag") = true →
      parseRoutingDecision s = "BOTH") ∧
    ((strHas (lowerStr s) "both" || strHas (lowerStr s) "mcp_and_rag") = false →
      (strHas (lowerStr s) "mcp" || strHas (lowerStr s) "database") = true →
      parseRoutingDecision s = "MCP") ∧
    ((strHas (lowerStr s) "both" || strHas (lowerStr s) "mcp_and_rag") = false →
      (strHas (lowerStr s) "mcp" || strHas (lowerStr s) "database") = false →
      (strHas (lowerStr s) "rag" || strHas (lowerStr s) "document") = true →
      parseRoutingDecision s = "RAG") ∧
    ((strHas (lowerStr s) "both" || strHas (lowerStr s) "mcp_and_rag") = false →
      (strHas (lowerStr s) "mcp" || strHas (lowerStr s) "database") = false →
      (strHas (lowerStr s) "rag" || strHas (lowerStr s) "document") = false →
      parseRoutingDecision s = "BOTH") := by
  refine ⟨?_, ?_, ?_, ?_⟩ <;>
    · intros
      simp only [parseRoutingDecision]
      simp [*]

/-- Witness for `parse_routing_decision_spec` at a concrete reply. -/
theorem parse_routing_decision_spec_witness :
    parseRoutingDecision "use MCP please" = "MCP" :=
  (parse_routing_decision_spec "use MCP please").2.1 (by decide) (by decide)

/-- C1: the validation normalizer accepts on any acceptance keyword;
otherwise retries on any retry keyword, with the next route read from a
source name in the same reply (defaulting to `BOTH`); otherwise the
hard-coded `engine number` / `en12345xyz` fixture check forces `ACCEPT`;
otherwise an ambiguous reply defaults to `ACCEPT`. -/
theorem parse_validation_result_spec (s : String) :
    ((acceptKeywords.any (fun k => strHas (lowerStr s) k)) = true →
      (parseValidationResult s).status = "ACCEPT") ∧
    ((acceptKeywords.any (fun k => strHas (lowerStr s) k)) = false →
      (retryKeywords.any (fun k => strHas (lowerStr s) k)) = true →
      parseValidationResult s =
        { status := "RETRY",
          nextAgent := some
            (if strHas (lowerStr s) "both" then "BOTH"
             else if strHas (lowerStr s) "mcp" then "MCP"
             else if strHas (lowerStr s) "rag" then "RAG"
             else "BOTH") }) ∧
    ((acceptKeywords.any (fun k => strHas (lowerStr s) k)) = false →
      (retryKeywords.any (fun k => strHas (lowerStr s) k)) = false →
      (strHas (lowerStr s) "engine number" && strHas (lowerStr s) "en12345xyz") = true →
      (parseValidationResult s).status = "ACCEPT") ∧
    ((acceptKeywords.any (fun k => strHas (lowerStr s) k)) = false →
      (retryKeywords.any (fun k => strHas (lowerStr s) k)) = false →
      (parseValidationResult s).status = "ACCEPT") := by
  refine ⟨?_, ?_, ?_, ?_⟩
  · intro h
    simp only [parseValidationResult]
    simp [h]
  · intro h1 h2
    simp only [parseValidationResult]
    simp [h1, h2]
    split
    · simp_all
    · split
      · simp_all
      · split <;> simp_all
  · intro h1 h2 h3
    simp only [parseValidationResult]
    simp [h1, h2, h3]
  · intro h1 h2
    simp only [parseValidationResult]
    simp [h1, h2]
    split <;> simp

/-- Witness for `parse_validation_result_spec` at a concrete retry reply. -/
theorem parse_validation_result_spec_witness :
    parseValidationResult "retry with rag" =
      { status := "RETRY", nextAgent := some "RAG" } :=
  ((parse_validation_result_spec "retry with rag").2.1 (by decide) (by decide)).trans
    (by decide)

/-! ## Theorems: the retry loop -/

/-- When neither worker reply of an attempt raises, the EXECUTING stage
returns the collected worker list. -/
lemma runWorkers_eq_ok (o : Oracle) (route : String) (k : Nat) (s t : String)
    (hm : o.mcpReply k = Except.ok s) (hr : o.ragReply k = Except.ok t) :
    runWorkers o route k = Except.ok (workerListOk o route k) := by
  unfold runWorkers workerListOk
  split_ifs <;> simp [hm, hr, Except.map, getOk]

/-- An answer accepted by the loop is accepted at an attempt between the
entry attempt and `maxAttempts`. -/
lemma runLoopFuel_accept_le (o : Oracle) :
    ∀ (fuel : Nat) (route : String) (att : Nat) (ans : String) (k : Nat),
      runLoopFuel o fuel route att = Except.ok (some (ans, k)) →
      att ≤ k ∧ k ≤ maxAttempts := by
  intro fuel
  induction fuel with
  | zero =>
    intro route att ans k h
    simp [runLoopFuel] at h
  | succ n ih =>
    intro route att ans k h
    simp only [runLoopFuel] at h
    split at h
    · split at h
      · exact absurd h (by simp)
      · split at h
        · simp only [Except.ok.injEq, Option.some.injEq, Prod.mk.injEq] at h
          obtain ⟨-, h2⟩ := h
          omega
        · have := ih _ _ _ _ h
          omega
    · exact absurd h (by simp)

/-- When no worker raises and every validation verdict is `RETRY`, the
loop runs out without an accepted answer. -/
lemma runLoopFuel_all_retry (o : Oracle)
    (hm : ∀ k, ∃ s, o.mcpReply k = Except.ok s)
    (hr : ∀ k, ∃ s, o.ragReply k = Except.ok s)
    (hv : ∀ k, (parseValidationResult (o.validationReply k)).status = "RETRY") :
    ∀ (fuel : Nat) (route : String) (att : Nat),
      runLoopFuel o fuel route att = Except.ok none := by
  intro fuel
  induction fuel with
  | zero => intro route att; simp [runLoopFuel]
  | succ n ih =>
    intro route att
    simp only [runLoopFuel]
    split
    · obtain ⟨s, hs⟩ := hm att
      obtain ⟨t, ht⟩ := hr att
      rw [runWorkers_eq_ok o route att s t hs ht, hv att]
      simp [ih]
    · rfl

/-- C3: the retry loop of `process_query` never reports more than
`maxAttempts = 3` attempts, and a run in which every validation verdict
is `RETRY` (and no worker raises) ends after exactly 3 attempts with
`success = false`, the explanatory error message and `attempts = 3`. -/
theorem retry_loop_bounded :
    (∀ (o : Oracle) (q : String) (n : Nat),
        (processQuery o q).attempts = some n → n ≤ maxAttempts) ∧
    (∀ (o : Oracle) (q : String),
        (∀ k, ∃ s, o.mcpReply k = Except.ok s) →
        (∀ k, ∃ s, o.ragReply k = Except.ok s) →
        (∀ k, (parseValidationResult (o.validationReply k)).status = "RETRY") →
        processQuery o q = exhaustedResult q) := by
  constructor
  · intro o q n h
    unfold processQuery runLoop at h
    rcases hl : runLoopFuel o (maxAttempts + 1) (parseRoutingDecision o.routingReply) 1
      with e | w
    · rw [hl] at h
      simp at h
    · rw [hl] at h
      match w with
      | none =>
        simp only [exhaustedResult] at h
        simp at h
        omega
      | some (ans, att) =>
        have hb := runLoopFuel_accept_le o _ _ _ _ _ hl
        by_cases he : ans = ""
        · simp only [he, if_pos, exhaustedResult] at h
          simp at h
          omega
        · simp [he] at h
          omega
  · intro o q hm hr hv
    unfold processQuery runLoop
    rw [runLoopFuel_all_retry o hm hr hv]

/-- Witness for `retry_loop_bounded` on an oracle whose validator always
replies `retry`. -/
theorem retry_loop_bounded_witness :
    processQuery oracleAllRetry "list all persons" = exhaustedResult "list all persons" :=
  retry_loop_bounded.2 oracleAllRetry "list all persons"
    (fun _ => ⟨"mcp text", rfl⟩) (fun _ => ⟨"rag text", rfl⟩)
    (fun _ => (by decide : (parseValidationResult "retry").status = "RETRY"))

/-- One accepting step of the loop. -/
lemma runLoopFuel_step_accept (o : Oracle) (fuel att : Nat) (route s t : String)
    (hle : att ≤ maxAttempts)
    (hm : o.mcpReply att = Except.ok s) (hr : o.ragReply att = Except.ok t)
    (hacc : (parseValidationResult (o.validationReply att)).status = "ACCEPT") :
    runLoopFuel o (fuel + 1) route att =
      Except.ok (some (candidateAnswer o att (workerListOk o route att), att)) := by
  simp only [runLoopFuel]
  rw [if_pos hle, runWorkers_eq_ok o route att s t hm hr, hacc]
  simp

/-- One retrying step of the loop. -/
lemma runLoopFuel_step_retry (o : Oracle) (fuel att : Nat) (route s t : String)
    (hle : att ≤ maxAttempts)
    (hm : o.mcpReply att = Except.ok s) (hr : o.ragReply att = Except.ok t)
    (hret : (parseValidationResult (o.validationReply att)).status = "RETRY") :
    runLoopFuel o (fuel + 1) route att =
      runLoopFuel o fuel
        ((parseValidationResult (o.validationReply att)).nextAgent.getD "BOTH")
        (att + 1) := by
  simp only [runLoopFuel]
  rw [if_pos hle, runWorkers_eq_ok o route att s t hm hr, hret]
  simp

/-- C4 (amended): when no worker raises, the verdicts of all attempts
before `att` are `RETRY` and the verdict of attempt `att` is `ACCEPT`,
the loop stops at attempt `att` with that attempt's CandidateAnswer;
`process_query` then returns `success = true`, that answer and
`attempts = att` — provided the answer is a non-empty string.  An
accepted empty answer is Python-falsy and yields the exhausted-failure
dictionary instead. -/
theorem process_query_accept_spec (o : Oracle) (q : String) (att : Nat)
    (hm : ∀ k, ∃ s, o.mcpReply k = Except.ok s)
    (hr : ∀ k, ∃ s, o.ragReply k = Except.ok s)
    (h1 : 1 ≤ att) (h3 : att ≤ maxAttempts)
    (hprev : ∀ k, 1 ≤ k → k < att →
        (parseValidationResult (o.validationReply k)).status = "RETRY")
    (hacc : (parseValidationResult (o.validationReply att)).status = "ACCEPT") :
    (candidateAt o att ≠ "" →
      processQuery o q =
        { success := true, query := q, result := some (candidateAt o att),
          attempts := some att, pattern := some "supervisor_multi_agent" }) ∧
    (candidateAt o att = "" → processQuery o q = exhaustedResult q) := by
  obtain ⟨s1, hs1⟩ := hm 1
  obtain ⟨t1, ht1⟩ := hr 1
  obtain ⟨s2, hs2⟩ := hm 2
  obtain ⟨t2, ht2⟩ := hr 2
  obtain ⟨s3, hs3⟩ := hm 3
  obtain ⟨t3, ht3⟩ := hr 3
  have hb : att ≤ 3 := h3
  have key : runLoop o (parseRoutingDecision o.routingReply) =
      Except.ok (some (candidateAt o att, att)) := by
    unfold runLoop
    interval_cases att
    · exact runLoopFuel_step_accept o 3 1 _ s1 t1 (by decide) hs1 ht1 hacc
    · exact (runLoopFuel_step_retry o 3 1 _ s1 t1 (by decide) hs1 ht1
        (hprev 1 (by omega) (by omega))).trans
        (runLoopFuel_step_accept o 2 2 _ s2 t2 (by decide) hs2 ht2 hacc)
    · exact (runLoopFuel_step_retry o 3 1 _ s1 t1 (by decide) hs1 ht1
        (hprev 1 (by omega) (by omega))).trans
        ((runLoopFuel_step_retry o 2 2 _ s2 t2 (by decide) hs2 ht2
          (hprev 2 (by omega) (by omega))).trans
         (runLoopFuel_step_accept o 1 3 _ s3 t3 (by decide) hs3 ht3 hacc))
  constructor
  · intro hne
    simp [processQuery, key, hne]
  · intro he
    simp [processQuery, key, he]

/-- Witness for `process_query_accept_spec`: a first-attempt accept on a
concrete oracle. -/
theorem process_query_accept_spec_witness :
    processQuery oracleAcceptNow "what is the age" =
      { success := true, query := "what is the age",
        result := some "John is 30 years old",
        attempts := some 1, pattern := some "supervisor_multi_agent" } := by
  have h := (process_query_accept_spec oracleAcceptNow "what is the age" 1
    (fun _ => ⟨"John is 30 years old", rfl⟩) (fun _ => ⟨"unused", rfl⟩)
    (by decide) (by decide) (fun k hk1 hk2 => absurd hk2 (by omega)) (by decide)).1
    (by decide)
  exact h.trans (by decide)

/-- C4 counterexample: the validator's verdict at attempt 1 is `ACCEPT`,
yet `process_query` returns `success = false` and `attempts = 3`,
because the accepted CandidateAnswer is the empty string and the source
tests it with Python truthiness (`if final_answer:`). -/
theorem process_query_accept_empty_cex :
    (parseValidationResult (cexAcceptEmpty.validationReply 1)).status = "ACCEPT" ∧
    (processQuery cexAcceptEmpty "what is the engine number").success = false ∧
    (processQuery cexAcceptEmpty "what is the engine number").attempts = some 3 := by
  decide

/-- C5 (amended): an exception raised by a worker-agent invocation is
not converted into a textual WorkerResult — it propagates to the
top-level `try` of `process_query`, which aborts the whole query and
returns `success = false` with the exception text and no attempt count. -/
theorem worker_error_propagates (o : Oracle) (q s e : String)
    (hroute : parseRoutingDecision o.routingReply = "BOTH")
    (hm : o.mcpReply 1 = Except.ok s)
    (hr : o.ragReply 1 = Except.error e) :
    processQuery o q = { success := false, query := q, error := some e } := by
  have hw : runWorkers o "BOTH" 1 = Except.error e := by
    unfold runWorkers
    simp [hm, hr, Except.map]
  have key : runLoop o (parseRoutingDecision o.routingReply) = Except.error e := by
    rw [hroute]
    unfold runLoop
    simp only [runLoopFuel]
    rw [if_pos (by decide : 1 ≤ maxAttempts), hw]
  simp [processQuery, key]

/-- Witness for `worker_error_propagates` on the concrete raising oracle. -/
theorem worker_error_propagates_witness :
    processQuery cexRagRaises "show jane and her insurance" =
      { success := false, query := "show jane and her insurance",
        error := some "boom" } :=
  worker_error_propagates cexRagRaises "show jane and her insurance"
    "Jane is 30, email jane@x.com" "boom" (by decide) rfl rfl

/-- C5 counterexample: with route `BOTH`, a working MCP worker and a RAG
worker that raises, the attempt is aborted — `process_query` returns the
top-level failure dictionary carrying the raw exception text, with no
synthesis, no validation and no attempt count. -/
theorem worker_error_aborts_cex :
    processQuery cexRagRaises "both sources please" =
      { success := false, query := "both sources please",
        error := some "boom" } := by
  decide

/-! ## Theorems: the record store -/

/-- A string append whose left part is non-empty is non-empty. -/
lemma str_append_ne_empty (s t : String) (h : s ≠ "") : s ++ t ≠ "" := by
  cases s with
  | mk a =>
    cases t with
    | mk b =>
      intro he
      apply h
      have hd : a ++ b = ([] : List Char) := congrArg String.data he
      have ha : a = [] := (List.append_eq_nil.mp hd).1
      rw [ha]

/-- C7: the schema declares `bank_accounts.personId` with
`ON DELETE CASCADE`, but the connection never enables `PRAGMA
foreign_keys`, so `delete_person` on a person owning a bank account
deletes only the `persons` row and leaves the account orphaned. -/
theorem delete_person_leaves_orphan :
    (deletePerson dbOneOfEach 1).1.success = true ∧
    (deletePerson dbOneOfEach 1).2.persons = [] ∧
    (deletePerson dbOneOfEach 1).2.accounts =
      [{ accountId := 1, personId := 1, bankName := "State Bank", balance := 100 }] := by
  decide

/-- C8: every record-store operation returns a structured result with a
boolean success flag; on failure it carries a non-empty human-readable
error string and leaves the database unchanged, and on success it
carries no error.  (The embedded tools are total functions: the
`try/except` wrapper of each tool means no exception reaches the
caller.) -/
theorem store_ops_error_safe (op : StoreOp) (db : DB) :
    ((runOp op db).1.success = false →
      (runOp op db).2 = db ∧
      ∃ m, (runOp op db).1.error = some m ∧ m ≠ "") ∧
    ((runOp op db).1.success = true → (runOp op db).1.error = none) := by
  cases op <;>
    simp only [runOp, createPerson, getPerson, listPersons, searchPersonByName,
      updatePerson, deletePerson, createBankAccount, getBankAccount, listBankAccounts,
      getAccountsByPerson, updateBankAccount, deleteBankAccount, getPersonWithAccounts]
  all_goals repeat' split
  all_goals constructor
  all_goals intro h
  all_goals first
    | trivial
    | rfl
    | (refine ⟨rfl, _, rfl, ?_⟩
       first
        | decide
        | (apply str_append_ne_empty
           decide)
        | (apply str_append_ne_empty
           apply str_append_ne_empty
           decide))
    | simp at h

/-- Witness for `store_ops_error_safe`: `get_person` on the empty
database fails, reports `Person not found`, and leaves the state
untouched. -/
theorem store_ops_error_safe_witness :
    (runOp (StoreOp.getPerson 1) initDB).2 = initDB ∧
    (runOp (StoreOp.getPerson 1) initDB).1.error = some "Person not found" := by
  have h := (store_ops_error_safe (StoreOp.getPerson 1) initDB).1 (by decide)
  exact ⟨h.1, by decide⟩

/-- Rows whose key is absent from the list are untouched by a keyed
replacement map. -/
lemma map_keep_of_not_mem {α : Type} (key : α → Nat) (k : Nat) (cur : α) :
    ∀ l : List α, k ∉ l.map key →
      l.map (fun a => if key a == k then cur else a) = l := by
  intro l
  induction l with
  | nil => intro _; rfl
  | cons x xs ih =>
    intro h
    simp only [List.map_cons, List.mem_cons] at h
    push_neg at h
    rw [List.map_cons, if_neg, ih h.2]
    simp only [beq_iff_eq]
    exact fun hx => h.1 hx.symm

/-- Replacing the first row found under a key by itself is the identity
when the keys are distinct. -/
lemma map_update_found {α : Type} (key : α → Nat) :
    ∀ (l : List α) (k : Nat) (cur : α),
      l.find? (fun a => key a == k) = some cur →
      (l.map key).Nodup →
      l.map (fun a => if key a == k then cur else a) = l := by
  intro l
  induction l with
  | nil => intro k cur h _; simp at h
  | cons x xs ih =>
    intro k cur h hd
    rw [List.map_cons, List.nodup_cons] at hd
    by_cases hx : (key x == k) = true
    · rw [List.find?_cons_of_pos] at h
      · have hcur : cur = x := by simpa using h.symm
        rw [List.map_cons, if_pos hx, hcur,
          map_keep_of_not_mem key k x xs (by
            have hk : key x = k := by simpa using hx
            rw [← hk]
            exact hd.1)]
      · exact hx
    · rw [List.find?_cons_of_neg] at h
      · rw [List.map_cons, if_neg hx, ih k cur h hd.2]
      · exact hx

/-- C9: `update_person` and `update_bank_account` leave omitted fields
unchanged; an empty string passed for a text field is Python-falsy and
also leaves the field unchanged; `age = 0` and `balance = 0` are
applied, because those arguments are compared against `None`
explicitly. -/
theorem update_partial_frame :
    (∀ (db : DB) (pid : Nat) (cur : Person),
      db.persons.find? (fun p => p.id == pid) = some cur →
      (db.persons.map Person.id).Nodup →
      (updatePerson db pid none none none).1.success = true ∧
      (updatePerson db pid none none none).2 = db ∧
      (updatePerson db pid (some "") none (some "")).1.success = true ∧
      (updatePerson db pid (some "") none (some "")).2 = db ∧
      (updatePerson db pid none (some 0) none).1.success = true ∧
      (updatePerson db pid none (some 0) none).1.person =
        some { id := pid, name := cur.name, age := 0, email := cur.email } ∧
      (updatePerson db pid none (some 0) none).2.accounts = db.accounts) ∧
    (∀ (db : DB) (aid : Nat) (cur : BankAccount),
      db.accounts.find? (fun a => a.accountId == aid) = some cur →
      (db.accounts.map BankAccount.accountId).Nodup →
      (updateBankAccount db aid none none).1.success = true ∧
      (updateBankAccount db aid none none).2 = db ∧
      (updateBankAccount db aid (some "") (some 0)).1.success = true ∧
      (updateBankAccount db aid (some "") (some 0)).1.account =
        some { accountId := aid, personId := cur.personId,
               bankName := cur.bankName, balance := 0 } ∧
      (updateBankAccount db aid (some "") (some 0)).2.persons = db.persons) := by
  constructor
  · intro db pid cur h hd
    have hid : cur.id = pid := by
      have := List.find?_some h
      simpa using this
    have hcur : ({ id := pid, name := cur.name, age := cur.age, email := cur.email } :
        Person) = cur := by
      cases cur
      simp_all
    have hmap : db.persons.map (fun q => if q.id == pid then cur else q) = db.persons :=
      map_update_found Person.id db.persons pid cur h hd
    have hmap' : db.persons.map (fun q => if q.id = pid then cur else q) = db.persons := by
      simpa using hmap
    refine ⟨?_, ?_, ?_, ?_, ?_, ?_, ?_⟩ <;>
      simp [updatePerson, h, pyOrStr, hcur, hmap']
  · intro db aid cur h hd
    have hid : cur.accountId = aid := by
      have := List.find?_some h
      simpa using this
    have hcur : ({ accountId := aid, personId := cur.personId,
                   bankName := cur.bankName, balance := cur.balance } :
        BankAccount) = cur := by
      cases cur
      simp_all
    have hmap : db.accounts.map (fun b => if b.accountId == aid then cur else b) =
        db.accounts :=
      map_update_found BankAccount.accountId db.accounts aid cur h hd
    have hmap' : db.accounts.map (fun b => if b.accountId = aid then cur else b) =
        db.accounts := by
      simpa using hmap
    refine ⟨?_, ?_, ?_, ?_, ?_⟩ <;>
      simp [updateBankAccount, h, pyOrStr, hcur, hmap']

/-- Witness for `update_partial_frame` on the one-person one-account
database. -/
theorem update_partial_frame_witness :
    (updatePerson dbOneOfEach 1 none (some 0) none).1.person =
      some { id := 1, name := "Alice", age := 0, email := "alice@example.com" } ∧
    (updateBankAccount dbOneOfEach 1 none none).2 = dbOneOfEach := by
  have h1 := (update_partial_frame.1 dbOneOfEach 1
    ⟨1, "Alice", 30, "alice@example.com"⟩ (by decide) (by decide))
  have h2 := (update_partial_frame.2 dbOneOfEach 1
    ⟨1, 1, "State Bank", 100⟩ (by decide) (by decide))
  exact ⟨h1.2.2.2.2.2.1, h2.2.1⟩

/-- C10: `search_person_by_name` matches the stored name
case-insensitively, is read-only, and returns the first matching row
(at most one person); with no match it fails with the
`No person named <name> found` message. -/
theorem search_person_by_name_spec (db : DB) (name : String) :
    (searchPersonByName db name).2 = db ∧
    (match db.persons.find? (fun p => lowerStr p.name == lowerStr name) with
     | some p => (searchPersonByName db name).1 = { success := true, person := some p }
     | none => (searchPersonByName db name).1 =
         { success := false,
           error := some ("No person named " ++ name ++ " found") }) := by
  unfold searchPersonByName
  rcases h : db.persons.find? (fun p => lowerStr p.name == lowerStr name) with _ | p <;>
    simp [h]

end AgenticRag
